import Mathlib

/-!
Verification development for the HeatAQ pool-energy simulator.

Shallow embedding, over ℚ, of:
* the schedule-resolution engine of `src/reference/python/pool_scheduler_db.py`
  (exception days, date-range programs, week patterns, Easter computation,
  period containment, daily transitions);
* the control planner and dispatch logic of
  `src/docs/pool_v3_6_0_3_simulator.py` (`plan_period_opening`,
  `plan_closed_period`, `execute_control`) and the temperature-integration
  step of `simulate_year`.

The thermal model (`calculate_heat_demand` and its sub-models) evaluates
transcendental functions (exp, fractional powers) on floats; everywhere the
planner or the simulation loop consumes it, the embedding takes the demand
as a parameter `demand : ℚ → ℕ → ℚ` (water temperature, weather-row index ↦
net demand `Q_total` in kW), exactly the value `calculate_heat_demand`
returns.  The one sub-model that is pure rational arithmetic,
`calculate_convection`, is embedded directly.
-/

/-! ### Calendar dates

`CalDate` is a Gregorian calendar date (year ≥ 1).  Day arithmetic uses the
standard civil-calendar rata-die conversion; `weekday` matches Python's
`date.weekday()` (Monday = 0). -/

structure CalDate where
  year : ℕ
  month : ℕ
  day : ℕ
deriving DecidableEq, Repr

/-- Rata-die style day count of a civil date (days from 0000-03-01 era
origin), valid for year ≥ 1.  Standard civil-from-days/days-from-civil
arithmetic. -/
def ratadieOfDate (d : CalDate) : ℕ :=
  let y := if d.month ≤ 2 then d.year - 1 else d.year
  let era := y / 400
  let yoe := y - era * 400
  let mp := if d.month > 2 then d.month - 3 else d.month + 9
  let doy := (153 * mp + 2) / 5 + d.day - 1
  let doe := yoe * 365 + yoe / 4 - yoe / 100 + doy
  era * 146097 + doe

/-- Inverse of `ratadieOfDate`. -/
def dateOfRatadie (z : ℕ) : CalDate :=
  let era := z / 146097
  let doe := z % 146097
  let yoe := (doe - doe / 1460 + doe / 36524 - doe / 146096) / 365
  let y := yoe + era * 400
  let doy := doe - (365 * yoe + yoe / 4 - yoe / 100)
  let mp := (5 * doy + 2) / 153
  let dd := doy - (153 * mp + 2) / 5 + 1
  let mm := if mp < 10 then mp + 3 else mp - 9
  { year := if mm ≤ 2 then y + 1 else y, month := mm, day := dd }

/-- `date + timedelta(days = k)`. -/
def addDays (d : CalDate) (k : ℤ) : CalDate :=
  dateOfRatadie ((ratadieOfDate d : ℤ) + k).toNat

/-- Python's `date.weekday()`: Monday = 0 … Sunday = 6. -/
def weekday (d : CalDate) : ℕ :=
  (ratadieOfDate d + 2) % 7

/-- Easter date by the Anonymous Gregorian algorithm, as in
`PoolSchedulerDB._get_easter_date` (fallback branch). -/
def easterGregorian (year : ℕ) : CalDate :=
  let a := year % 19
  let b := year / 100
  let c := year % 100
  let d := b / 4
  let e := b % 4
  let f := (b + 8) / 25
  let g := (b - f + 1) / 3
  let h := (19 * a + b - d - g + 15) % 30
  let i := c / 4
  let k := c % 4
  let l := (32 + 2 * e + 2 * i - h - k) % 7
  let m := (a + 11 * h + 22 * l) / 451
  let month := (h + l - 7 * m + 114) / 31
  let day := ((h + l - 7 * m + 114) % 31) + 1
  { year := year, month := month, day := day }

/-! ### Schedule data model

Mirrors the structures `PoolSchedulerDB` loads from the database:
day-schedule names, week schedules, date-range programs and exception days.
The lists `date_ranges` and `exception_days` are priority-sorted descending,
as produced by the loaders' `ORDER BY priority DESC`. -/

/-- One daily operating period (`{"from": .., "to": .., "target_temp": ..}`). -/
structure DayPeriod where
  fromHour : ℕ
  toHour : ℕ
  target_temp : ℚ
deriving DecidableEq, Repr

/-- A week schedule: day-of-week ↦ optional day-schedule name
(`None` models a NULL from the LEFT JOIN). -/
structure WeekSched where
  mon : Option String
  tue : Option String
  wed : Option String
  thu : Option String
  fri : Option String
  sat : Option String
  sun : Option String
deriving DecidableEq, Repr

/-- `week_schedule['days'].get(dow)` with `dow` from Python `weekday()`. -/
def WeekSched.dayName (w : WeekSched) : ℕ → Option String
  | 0 => w.mon
  | 1 => w.tue
  | 2 => w.wed
  | 3 => w.thu
  | 4 => w.fri
  | 5 => w.sat
  | 6 => w.sun
  | _ => none

/-- A calendar date-range program row. -/
structure DateRange where
  priority : ℤ
  week_schedule_id : ℕ
  start_month : ℕ
  start_day : ℕ
  end_month : ℕ
  end_day : ℕ
  is_recurring : Bool
deriving DecidableEq, Repr

/-- A calendar exception-day (holiday) row.  `fixed_month`/`fixed_day` are
`Option` because the columns are nullable; `day_schedule_name` is the joined
schedule name. -/
structure ExceptionDay where
  day_schedule_name : String
  fixed_month : Option ℕ
  fixed_day : Option ℕ
  is_moving : Bool
  easter_offset : Option ℤ
  priority : ℤ
deriving DecidableEq, Repr

/-- The loaded scheduler state. -/
structure SchedulerDB where
  schedules : List String
  week_schedules : List (ℕ × WeekSched)
  date_ranges : List DateRange
  exception_days : List ExceptionDay
  holiday_dates : List (ℕ × CalDate)
  base_week_schedule_id : Option ℕ
deriving DecidableEq, Repr

/-- Python truthiness of a nullable integer column (`None` and `0` falsy). -/
def truthyNat : Option ℕ → Bool
  | none => false
  | some n => n ≠ 0

/-- `self.week_schedules.get(id)`. -/
def lookupWeek (S : SchedulerDB) (id : ℕ) : Option WeekSched :=
  (S.week_schedules.find? (fun e => e.1 = id)).map (fun e => e.2)

/-- `PoolSchedulerDB._get_easter_date`: precomputed lookup with
Gregorian-algorithm fallback. -/
def get_easter_date (S : SchedulerDB) (year : ℕ) : CalDate :=
  match S.holiday_dates.find? (fun e => e.1 = year) with
  | some e => e.2
  | none => easterGregorian year

/-- `PoolSchedulerDB._check_exception_days`: first exception day (in the
priority-sorted list) matching the date.  A moving holiday with a non-null
Easter offset matches `date == easter + offset`; otherwise a fixed holiday
matches on (month, day). -/
def check_exception_days (S : SchedulerDB) (date : CalDate) : Option ExceptionDay :=
  S.exception_days.find? fun exc =>
    if exc.is_moving && exc.easter_offset.isSome then
      decide (date = addDays (get_easter_date S date.year) (exc.easter_offset.getD 0))
    else if truthyNat exc.fixed_month && truthyNat exc.fixed_day then
      decide (date.month = exc.fixed_month.getD 0 ∧ date.day = exc.fixed_day.getD 0)
    else false

/-- Python tuple `<=` on (month, day) pairs: lexicographic. -/
def mdLe (a b : ℕ × ℕ) : Prop :=
  a.1 < b.1 ∨ (a.1 = b.1 ∧ a.2 ≤ b.2)

instance (a b : ℕ × ℕ) : Decidable (mdLe a b) := by unfold mdLe; infer_instance

/-- `PoolSchedulerDB._date_in_range`: recurring annual window test on
(month, day) tuples, with year-crossing support; non-recurring ranges never
match. -/
def date_in_range (date : CalDate) (dr : DateRange) : Bool :=
  if dr.is_recurring then
    let from_md := (dr.start_month, dr.start_day)
    let to_md := (dr.end_month, dr.end_day)
    let current_md := (date.month, date.day)
    if mdLe from_md to_md then
      decide (mdLe from_md current_md) && decide (mdLe current_md to_md)
    else
      decide (mdLe from_md current_md) || decide (mdLe current_md to_md)
  else false

/-- The date-range loop of `get_schedule_for_date`: first program whose range
contains the date and whose week pattern resolves the weekday to a schedule
name; programs that match but do not resolve are skipped. -/
def resolveRanges (S : SchedulerDB) (date : CalDate) : List DateRange → Option String
  | [] => none
  | dr :: rest =>
    if date_in_range date dr then
      match lookupWeek S dr.week_schedule_id with
      | some ws =>
        match ws.dayName (weekday date) with
        | some name => some name
        | none => resolveRanges S date rest
      | none => resolveRanges S date rest
    else resolveRanges S date rest

/-- `PoolSchedulerDB.get_schedule_for_date`: exception days, then date-range
programs, then the template's base week schedule, then the first loaded
schedule; `none` models the final `ValueError`. -/
def get_schedule_for_date (S : SchedulerDB) (date : CalDate) : Option String :=
  match check_exception_days S date with
  | some exc => some exc.day_schedule_name
  | none =>
    match resolveRanges S date S.date_ranges with
    | some name => some name
    | none =>
      let base : Option String :=
        match S.base_week_schedule_id with
        | some id =>
          if id ≠ 0 then
            match lookupWeek S id with
            | some ws => ws.dayName (weekday date)
            | none => none
          else none
        | none => none
      match base with
      | some name => some name
      | none => S.schedules.head?

/-! ### Period queries (scheduler side) -/

/-- `PoolSchedulerDB.get_current_period` restricted to its containment test:
same-day period matches `from <= h < to`; overnight period matches
`h >= from or h < to`.  (The simulator calls this as
`get_current_period_info(timestamp, periods)`.) -/
def get_current_period (periods : List DayPeriod) (hour : ℕ) : Option DayPeriod :=
  periods.find? fun p =>
    if p.fromHour < p.toHour then
      decide (p.fromHour ≤ hour ∧ hour < p.toHour)
    else
      decide (hour ≥ p.fromHour ∨ hour < p.toHour)

/-- `PoolSchedulerDB.get_period_duration`: hours in a period, handling the
overnight wrap. -/
def get_period_duration (p : DayPeriod) : ℕ :=
  if p.fromHour < p.toHour then p.toHour - p.fromHour
  else 24 - p.fromHour + p.toHour

/-- Transition type: the pool opens or closes at a given hour. -/
inductive TransKind where
  | topen
  | tclose
deriving DecidableEq, Repr

/-- One entry of `get_daily_transitions`. -/
structure Transition where
  time : ℕ
  kind : TransKind
  target_temp : Option ℚ
  from_temp : Option ℚ
deriving DecidableEq, Repr

/-- Stable insertion into a time-sorted transition list (Python's
`list.sort` is stable; equal keys keep build order). -/
def insertByTime (t : Transition) : List Transition → List Transition
  | [] => [t]
  | u :: us => if u.time ≤ t.time then u :: insertByTime t us else t :: u :: us

/-- Stable sort by transition time. -/
def sortByTime : List Transition → List Transition
  | [] => []
  | t :: ts => insertByTime t (sortByTime ts)

/-- `PoolSchedulerDB.get_daily_transitions`: an open transition at each
period's start and a close transition at its end, sorted by hour. -/
def get_daily_transitions (periods : List DayPeriod) : List Transition :=
  let build := periods.foldl
    (fun (acc : List Transition × Option ℚ) p =>
      (acc.1 ++
        [{ time := p.fromHour, kind := TransKind.topen,
           target_temp := some p.target_temp, from_temp := acc.2 },
         { time := p.toHour, kind := TransKind.tclose,
           target_temp := none, from_temp := some p.target_temp }],
       some p.target_temp))
    ([], none)
  sortByTime build.1

/-! ### Simulator configuration and thermal constants -/

/-- The configuration fields of `pool_v3_6_0_3_simulator` that the control
planner and the simulation loop read. -/
structure SimConfig where
  target_temp : ℚ
  min_temp : ℚ
  max_temp : ℚ
  volume_m3 : ℚ
  hp_capacity_kw : ℚ
  boiler_capacity_kw : ℚ
  hp_cop_nominal : ℚ
deriving DecidableEq, Repr

/-- `self.thermal_mass_rate = volume_m3 * 1000 * 4186 / 3600000` (kWh/K),
from `PoolEnergySystemV56.__init__`. -/
def thermal_mass_rate (c : SimConfig) : ℚ :=
  c.volume_m3 * 1000 * 4186 / 3600000

/-- `PoolEnergySystemV56.calculate_convection`: Bowen-ratio convection with
the sign-preserving 1.0 Pa clamp of the vapor-pressure difference. -/
def calculate_convection (T_water T_air Q_evap P_water P_air : ℚ) : ℚ :=
  let c_p : ℚ := 1005
  let p_atm : ℚ := 101325
  let L_v : ℚ := 2454000
  let delta_T := T_water - T_air
  let delta_P := P_water - P_air
  let delta_P := if |delta_P| < 1 then (if delta_P ≥ 0 then 1 else -1) else delta_P
  let Bo := (c_p * p_atm) / (0.622 * L_v) * delta_T / delta_P
  let Q_conv := Bo * Q_evap
  max 0 Q_conv

/-! ### Control plans -/

/-- The plan returned by `plan_period_opening` (open-period plan).
`caseNum` is the source's `'case'` key. -/
structure OpenPlan where
  hp_rate_day : ℚ
  boiler_rate_day : ℚ
  temp_start : ℚ
  day_demand : ℚ
  energy_buffer : ℚ
  caseNum : ℕ
deriving DecidableEq, Repr

/-- The plan returned by `plan_closed_period` (closed-period plan).
`caseNum` is the source's `'case'` key. -/
structure ClosedPlan where
  caseNum : ℕ
  target_night : ℚ
  day_hp_power : ℚ
  day_boiler_power : ℚ
  start_hp_in : ℚ
  start_boiler_in : Option ℚ
  night_hp_power : ℚ
  night_boiler_power : ℚ
  hours_to_open : ℚ
  forecast_demand : ℚ
  energy_needed : ℚ
deriving DecidableEq, Repr

/-- Sum of `f (idx + i)` for `i in range(n)`, stopping when `idx + i`
reaches `len` — the simulator's `for i in range(n): if idx+i >= len(df):
break; ... += demand['Q_total']` pattern (the break condition is monotone in
`i`, so filtering equals breaking). -/
def fsum (idx len n : ℕ) (f : ℕ → ℚ) : ℚ :=
  (((List.range n).filter fun i => decide (idx + i < len)).map
    fun i => f (idx + i)).sum

/-- The list of per-hour demands gathered by the same bounded loop. -/
def flist (idx len n : ℕ) (f : ℕ → ℚ) : List ℚ :=
  ((List.range n).filter fun i => decide (idx + i < len)).map
    fun i => f (idx + i)

/-- Average of a demand list, `0` when empty (`total / len(day_demand) if
day_demand else 0`). -/
def avgOf (l : List ℚ) : ℚ :=
  if l.isEmpty then 0 else l.sum / (l.length : ℚ)

/-! ### Open-period planning (`plan_period_opening`) -/

/-- `PoolEnergySystemV56.plan_period_opening`: forecast the whole open
period at the (held-constant) transition water temperature, compute the
temperature-buffer energy above target, and either spread the shortfall as a
constant HP rate (no boiler) or run the HP at capacity plus a constant
boiler rate.  The debug print of the source is omitted. -/
def plan_period_opening (c : SimConfig) (demand : ℚ → ℕ → ℚ)
    (current_idx len : ℕ) (T_water : ℚ) (current_period : DayPeriod) : OpenPlan :=
  let period_hours := get_period_duration current_period
  let day_demand_total := fsum current_idx len period_hours (demand T_water)
  let temp_excess := max 0 (T_water - c.target_temp)
  let energy_buffer := temp_excess * thermal_mass_rate c
  let hp_capacity := c.hp_capacity_kw
  let hp_available := hp_capacity * (period_hours : ℚ)
  let total_available := energy_buffer + hp_available
  let rates : ℚ × ℚ :=
    if total_available ≥ day_demand_total then
      (max 0 (min ((day_demand_total - energy_buffer) / (period_hours : ℚ)) hp_capacity), 0)
    else
      (hp_capacity, (day_demand_total - total_available) / (period_hours : ℚ))
  { hp_rate_day := rates.1, boiler_rate_day := rates.2, temp_start := T_water,
    day_demand := day_demand_total, energy_buffer := energy_buffer,
    caseNum := if rates.2 = 0 then 1 else 2 }

/-! ### Closed-period planning (`plan_closed_period`) -/

/-- The four-case classification by forecast average hourly demand against
the capacities, inlined twice (iterations 1 and 2) in `plan_closed_period`.
Returns `(case, target_night, day_hp_power, day_boiler_power)`. -/
def classify_demand_case (c : SimConfig) (avg_demand : ℚ) : ℕ × ℚ × ℚ × ℚ :=
  if avg_demand ≤ c.hp_capacity_kw then
    (1, c.target_temp, avg_demand, 0)
  else if avg_demand ≤ c.hp_capacity_kw + thermal_mass_rate c then
    let extra_temp := (avg_demand - c.hp_capacity_kw) * 10 / thermal_mass_rate c
    (2, min (c.target_temp + extra_temp) c.max_temp, c.hp_capacity_kw, 0)
  else if avg_demand ≤ c.hp_capacity_kw + c.boiler_capacity_kw then
    (3, c.max_temp, c.hp_capacity_kw, avg_demand - c.hp_capacity_kw)
  else
    (4, c.max_temp, c.hp_capacity_kw, c.boiler_capacity_kw)

/-- The refinement loops of iterations 2 and 3 of `plan_closed_period`: a
10-hour forecast that integrates the simulated temperature under an assumed
supply `Q_supplied`, clamping to `[min_temp, max_temp]`, and collects the
per-hour demands. -/
def forecast_day_sim (c : SimConfig) (demand : ℚ → ℕ → ℚ)
    (start len : ℕ) (T0 Q_supplied : ℚ) : List ℚ :=
  (((List.range 10).filter fun i => decide (start + i < len)).foldl
    (fun (s : ℚ × List ℚ) i =>
      let d := demand s.1 (start + i)
      let T1 := s.1 + (Q_supplied - d) / thermal_mass_rate c
      (max c.min_temp (min T1 c.max_temp), s.2 ++ [d]))
    (T0, [])).2

/-- The final plan assembly of `plan_closed_period`: if the HP alone covers
the energy needed, the HP start is delayed and the boiler start is `None`;
otherwise the HP starts immediately and the boiler start covers the
remainder. -/
def finish_closed_plan (c : SimConfig) (caseNum : ℕ)
    (target_night day_hp_power day_boiler_power avg_demand hours_available
     total_energy_needed hours_hp_needed : ℚ) : ClosedPlan :=
  if total_energy_needed ≤ c.hp_capacity_kw * hours_available then
    { caseNum := caseNum, target_night := target_night,
      day_hp_power := day_hp_power, day_boiler_power := day_boiler_power,
      start_hp_in := max 0 (hours_available - hours_hp_needed),
      start_boiler_in := none,
      night_hp_power := c.hp_capacity_kw, night_boiler_power := 0,
      hours_to_open := hours_available, forecast_demand := avg_demand,
      energy_needed := total_energy_needed }
  else
    { caseNum := caseNum, target_night := target_night,
      day_hp_power := day_hp_power, day_boiler_power := day_boiler_power,
      start_hp_in := 0,
      start_boiler_in := some (max 0 (hours_available -
        (total_energy_needed - c.hp_capacity_kw * hours_available) / c.boiler_capacity_kw)),
      night_hp_power := c.hp_capacity_kw, night_boiler_power := c.boiler_capacity_kw,
      hours_to_open := hours_available, forecast_demand := avg_demand,
      energy_needed := total_energy_needed }

/-- `PoolEnergySystemV56.plan_closed_period`.  `next_opening` is the
scheduler's `get_next_opening_info` result (`hours_until`; the period it
also returns is never used); `none` makes the planner return no plan.  The
three forecast iterations, the night-energy estimate and the start-time
derivation follow the source line by line; `demand` stands for
`calculate_heat_demand(T, weather_df.iloc[j], ...)['Q_total']`. -/
def plan_closed_period (c : SimConfig) (demand : ℚ → ℕ → ℚ)
    (current_idx len : ℕ) (T_water : ℚ) (next_opening : Option ℕ) : Option ClosedPlan :=
  match next_opening with
  | none => none
  | some hours_to_open =>
    let T_avg_estimate := (T_water + min (T_water + 2) c.max_temp) / 2
    let _night_losses := fsum current_idx len hours_to_open (demand T_avg_estimate)
    let forecast_start := current_idx + hours_to_open
    let day_demand1 := flist forecast_start len 10 (demand c.target_temp)
    let avg1 := avgOf day_demand1
    let cls1 := classify_demand_case c avg1
    let day_demand2 := forecast_day_sim c demand forecast_start len cls1.2.1 c.hp_capacity_kw
    let avg_demand := avgOf day_demand2
    let cls2 := classify_demand_case c avg_demand
    let caseNum := cls2.1
    let target_night0 := cls2.2.1
    let day_hp_power := cls2.2.2.1
    let day_boiler_power := cls2.2.2.2
    let day_demand_final := forecast_day_sim c demand forecast_start len target_night0
      (day_hp_power + day_boiler_power)
    let avg_demand_final := avgOf day_demand_final
    let target_night :=
      if caseNum = 2 ∧ avg_demand_final > c.hp_capacity_kw + 5 then
        min (c.target_temp + (avg_demand_final - c.hp_capacity_kw) * 10 / thermal_mass_rate c + 0.2)
          c.max_temp
      else target_night0
    let temp_rise := max 0 (target_night - T_water)
    let hours_available : ℚ := (hours_to_open : ℚ)
    let T_avg_heating := (T_water + target_night) / 2
    let lsum := fsum current_idx len (min hours_to_open 5) (demand T_avg_heating)
    let losses_per_hour := if lsum > 0 then lsum / ((min hours_to_open 5 : ℕ) : ℚ) else lsum
    let energy_for_temp := temp_rise * thermal_mass_rate c
    let th : ℚ × ℚ :=
      if temp_rise > 0.1 then
        let net_heating_power := max 0 (c.hp_capacity_kw - losses_per_hour)
        let hours_hp_needed :=
          if net_heating_power > 0 then
            min hours_available (energy_for_temp / net_heating_power * 1.2)
          else hours_available
        let wait_hours := max 0 (hours_available - hours_hp_needed)
        if wait_hours > 0 then
          let wait_losses := fsum current_idx len (Int.toNat ⌊wait_hours⌋) (demand T_water)
          (energy_for_temp + wait_losses + losses_per_hour * hours_hp_needed, hours_hp_needed)
        else
          (energy_for_temp + losses_per_hour * hours_hp_needed, hours_hp_needed)
      else
        let ten := losses_per_hour * hours_available
        (ten, if c.hp_capacity_kw > 0 then ten / c.hp_capacity_kw else hours_available)
    some (finish_closed_plan c caseNum target_night day_hp_power day_boiler_power
      avg_demand hours_available th.1 th.2)

/-! ### Hourly dispatch (`execute_control`) -/

/-- The record every control branch returns.  The purely diagnostic mode
label strings of the source (`"reactive"`, `"open_case1_hp"`, …) are
omitted; `caseNum` and `preheat` identify the branch. -/
structure ControlResult where
  Q_needed : ℚ
  Q_hp : ℚ
  Q_boiler : ℚ
  Q_delivered : ℚ
  Q_unmet : ℚ
  cop : ℚ
  hp_electric : ℚ
  caseNum : ℕ
  preheat : Bool
deriving DecidableEq, Repr

/-- Assembles the common tail of every `execute_control` return:
`Q_delivered = Q_hp + Q_boiler`, `Q_unmet = max(0, Q_needed − Q_delivered)`,
`cop = calculate_cop(...) = hp_cop_nominal`, and the electric draw. -/
def mk_result (c : SimConfig) (Q_needed Q_hp Q_boiler : ℚ)
    (caseNum : ℕ) (preheat : Bool) : ControlResult :=
  let cop := c.hp_cop_nominal
  let Q_delivered := Q_hp + Q_boiler
  { Q_needed := Q_needed, Q_hp := Q_hp, Q_boiler := Q_boiler,
    Q_delivered := Q_delivered, Q_unmet := max 0 (Q_needed - Q_delivered),
    cop := cop, hp_electric := if cop > 0 then Q_hp / cop else 0,
    caseNum := caseNum, preheat := preheat }

/-- The thermostat block that `execute_control` duplicates verbatim for
reactive mode and for the predictive no-periods fallback: recovery term
below target (capped at 200 kW), HP first, boiler for the remainder. -/
def thermostat_dispatch (c : SimConfig) (Q_demand T_water : ℚ) : ControlResult :=
  let Q_needed :=
    if T_water < c.target_temp then
      Q_demand + min ((c.target_temp - T_water) * thermal_mass_rate c) 200
    else Q_demand
  let Q_hp := min Q_needed c.hp_capacity_kw
  let Q_boiler := min (Q_needed - Q_hp) c.boiler_capacity_kw
  mk_result c Q_needed Q_hp Q_boiler 0 false

/-- Open-period dispatch: the plan's constant rates, each clamped by the
configured capacity; `Q_needed` is the hour's demand itself. -/
def open_dispatch (c : SimConfig) (plan : OpenPlan) (Q_demand : ℚ) : ControlResult :=
  let Q_needed := Q_demand
  let Q_hp := min plan.hp_rate_day c.hp_capacity_kw
  let Q_boiler := min plan.boiler_rate_day c.boiler_capacity_kw
  mk_result c Q_needed Q_hp Q_boiler plan.caseNum false

/-- The fractional-hour activation test of the closed-period execution:
fully active once `elapsed >= start_in`; in the single hour straddling the
boundary, active at `power_factor = 1 − fractional_part`; inactive before.
Returns `(active, power_factor)`. -/
def activation (start_in elapsed : ℚ) : Bool × ℚ :=
  if elapsed ≥ start_in then (true, 1)
  else if elapsed ≥ (⌊start_in⌋ : ℚ) then (true, 1 - (start_in - (⌊start_in⌋ : ℚ)))
  else (false, 0)

/-- The boiler-activation test of the closed-period execution: a plan with
no boiler start time never activates the boiler. -/
def closed_boiler_act (plan : ClosedPlan) (hours_since_plan : ℚ) : Bool × ℚ :=
  match plan.start_boiler_in with
  | some sbi => activation sbi hours_since_plan
  | none => (false, 0)

/-- The heat / recalc / maintain / wait sub-mode choice of the closed-period
execution: returns `(Q_needed, preheat)`. -/
def closed_need (c : SimConfig) (plan : ClosedPlan)
    (Q_demand T_water hours_since_plan : ℚ) : ℚ × Bool :=
  let hours_remaining := plan.hours_to_open - hours_since_plan
  let hp_act := activation plan.start_hp_in hours_since_plan
  let temp_error := plan.target_night - T_water
  if hp_act.1 ∧ temp_error > 0.1 ∧ hours_remaining > 0 then
    let energy_needed := temp_error * thermal_mass_rate c
    let Q_recovery := max 0 (min (energy_needed / hours_remaining) 400)
    (Q_demand + Q_recovery, true)
  else if hp_act.1 ∧ hours_remaining > 0 then
    let temp_still_needed := plan.target_night - T_water
    if temp_still_needed > 0.05 then
      let energy_for_temp := temp_still_needed * thermal_mass_rate c
      let energy_for_losses := Q_demand * hours_remaining
      ((energy_for_temp + energy_for_losses) / hours_remaining, true)
    else (Q_demand, false)
  else (Q_demand, false)

/-- Closed-period execution with a valid plan (`execute_control`, closed
branch): heat / recalc / maintain / wait sub-modes for `Q_needed`, then the
power application `Q_hp = min(Q_needed, night_hp_power * power_factor)` etc.
`hours_since_plan` is the elapsed time since the close transition, which the
source reconstructs from timestamps. -/
def closed_dispatch (c : SimConfig) (plan : ClosedPlan)
    (Q_demand T_water hours_since_plan : ℚ) : ControlResult :=
  let hp_act := activation plan.start_hp_in hours_since_plan
  let boiler_act := closed_boiler_act plan hours_since_plan
  let need := closed_need c plan Q_demand T_water hours_since_plan
  let powers : ℚ × ℚ :=
    if hp_act.1 then
      let Q_hp := min need.1 (plan.night_hp_power * hp_act.2)
      (Q_hp,
       if boiler_act.1 then min (need.1 - Q_hp) (plan.night_boiler_power * boiler_act.2)
       else 0)
    else (min Q_demand c.hp_capacity_kw, 0)
  mk_result c need.1 powers.1 powers.2 plan.caseNum need.2

/-- Closed-period execution when no plan could be produced (no next opening
found): simple maintain, HP only, no pre-heat. -/
def closed_no_plan_dispatch (c : SimConfig) (Q_demand : ℚ) : ControlResult :=
  mk_result c Q_demand (min Q_demand c.hp_capacity_kw) 0 0 false

/-- Control mode (`config['control']['mode']`). -/
inductive CtrlMode where
  | reactive
  | predictive
deriving DecidableEq, Repr

/-- The transition-triggered plan refresh at the top of the predictive path
of `execute_control`: at an open transition for this hour, re-plan the open
period for the period starting now; at a close transition, re-plan the
closed period (possibly to `None`). -/
def update_plans (c : SimConfig) (demand : ℚ → ℕ → ℚ) (current_idx len : ℕ)
    (T_water : ℚ) (periods : List DayPeriod) (hour : ℕ) (next_opening : Option ℕ)
    (s : Option OpenPlan × Option ClosedPlan) : Option OpenPlan × Option ClosedPlan :=
  (get_daily_transitions periods).foldl
    (fun s t =>
      if t.time = hour then
        match t.kind with
        | TransKind.topen =>
          match periods.find? (fun p => p.fromHour = hour) with
          | some p => (some (plan_period_opening c demand current_idx len T_water p), s.2)
          | none => s
        | TransKind.tclose =>
          (s.1, plan_closed_period c demand current_idx len T_water next_opening)
      else s) s

/-- `PoolEnergySystemV56.execute_control`.  Returns the hourly dispatch
record together with the updated `(open_plan, closed_plan)` state the source
keeps on `self`.  `demand` stands for `calculate_heat_demand`, `periods` for
`scheduler.get_periods(date)`, `hour` for `timestamp.hour`, `next_opening`
for the scheduler's next-opening lookup, and `hours_since_plan` for the
elapsed-time reconstruction of the source. -/
def execute_control (c : SimConfig) (mode : CtrlMode) (demand : ℚ → ℕ → ℚ)
    (current_idx len : ℕ) (T_water : ℚ) (periods : List DayPeriod) (hour : ℕ)
    (next_opening : Option ℕ) (hours_since_plan : ℚ)
    (open_plan : Option OpenPlan) (closed_plan : Option ClosedPlan) :
    ControlResult × Option OpenPlan × Option ClosedPlan :=
  let Q_demand := demand T_water current_idx
  match mode with
  | CtrlMode.reactive => (thermostat_dispatch c Q_demand T_water, open_plan, closed_plan)
  | CtrlMode.predictive =>
    if periods.isEmpty then
      (thermostat_dispatch c Q_demand T_water, open_plan, closed_plan)
    else
      let s1 := update_plans c demand current_idx len T_water periods hour
        next_opening (open_plan, closed_plan)
      match get_current_period periods hour with
      | some cur =>
        let plan := s1.1.getD (plan_period_opening c demand current_idx len T_water cur)
        (open_dispatch c plan Q_demand, some plan, s1.2)
      | none =>
        match s1.2 with
        | some plan => (closed_dispatch c plan Q_demand T_water hours_since_plan, s1.1, some plan)
        | none =>
          match plan_closed_period c demand current_idx len T_water next_opening with
          | some plan => (closed_dispatch c plan Q_demand T_water hours_since_plan, s1.1, some plan)
          | none => (closed_no_plan_dispatch c Q_demand, s1.1, none)

/-! ### The simulation loop (`simulate_year`) -/

/-- One temperature-integration step of `simulate_year`:
`ΔT = (Q_delivered − Q_demand) * 3600 * 1000 / (volume_m3 * 1000 * 4186)`,
then clamp to `[min_temp − 1, max_temp]`. -/
def sim_step (c : SimConfig) (Q_delivered Q_total T_water : ℚ) : ℚ :=
  let dT := (Q_delivered - Q_total) * 3600 * 1000 / (c.volume_m3 * 1000 * 4186)
  max (c.min_temp - 1) (min c.max_temp (T_water + dT))

/-- The water-temperature trajectory of `simulate_year`, abstracted over the
per-hour pair `(Q_delivered, Q_total)` as a function `f` of the hour index
and the current temperature (that pair is what `execute_control` and
`calculate_heat_demand` contribute to the integration).  `sim_temps c f n`
is the temperature recorded after `n` hours; hour 0 starts at
`target_temp`. -/
def sim_temps (c : SimConfig) (f : ℕ → ℚ → ℚ × ℚ) : ℕ → ℚ
  | 0 => c.target_temp
  | n + 1 =>
    let T := sim_temps c f n
    let qq := f n T
    sim_step c qq.1 qq.2 T

/-- The hour-by-hour loop of `simulate_year` over a window of
`(weather index, hour of day)` pairs with a fixed daily period list,
threading the planner state and the water temperature exactly as the source
does: control first (which may create plans), then integration with the
same hour's demand, then the next hour.  Returns the per-hour control
records. -/
def simulate_hours (c : SimConfig) (mode : CtrlMode) (demand : ℚ → ℕ → ℚ)
    (len : ℕ) (periods : List DayPeriod) (next_opening : Option ℕ)
    (hours_since_plan : ℚ) :
    List (ℕ × ℕ) → Option OpenPlan × Option ClosedPlan → ℚ → List ControlResult
  | [], _, _ => []
  | (idx, hour) :: rest, plans, T =>
    let r := execute_control c mode demand idx len T periods hour next_opening
      hours_since_plan plans.1 plans.2
    let T1 := sim_step c r.1.Q_delivered (demand T idx) T
    r.1 :: simulate_hours c mode demand len periods next_opening hours_since_plan
      rest (r.2.1, r.2.2) T1

/-! ### Theorems -/

/-- The effective Bowen-ratio divisor after the 1.0 Pa sign-preserving
clamp of `calculate_convection`. -/
def clamped_delta_P (P_water P_air : ℚ) : ℚ :=
  let delta_P := P_water - P_air
  if |delta_P| < 1 then (if delta_P ≥ 0 then 1 else -1) else delta_P

/-- C7: in `calculate_convection`, whenever `|P_water − P_air| < 1.0` the
divisor is replaced by `+1.0` if the difference is `≥ 0` and by `−1.0`
otherwise, so the Bowen-ratio division always uses a divisor of magnitude
at least `1.0`; the returned convection loss is `max(0, Bo * Q_evap)` and
hence nonnegative. -/
theorem claim_C7_convection_clamp (T_water T_air Q_evap P_water P_air : ℚ) :
    1 ≤ |clamped_delta_P P_water P_air| ∧
    (|P_water - P_air| < 1 →
      clamped_delta_P P_water P_air = if P_water - P_air ≥ 0 then 1 else -1) ∧
    (1 ≤ |P_water - P_air| → clamped_delta_P P_water P_air = P_water - P_air) ∧
    calculate_convection T_water T_air Q_evap P_water P_air =
      max 0 ((1005 * 101325) / (0.622 * 2454000) * (T_water - T_air) /
        clamped_delta_P P_water P_air * Q_evap) ∧
    0 ≤ calculate_convection T_water T_air Q_evap P_water P_air := by
  refine ⟨?_, ?_, ?_, rfl, le_max_left 0 _⟩
  · unfold clamped_delta_P
    by_cases h : |P_water - P_air| < 1
    · rw [if_pos h]
      by_cases hs : P_water - P_air ≥ 0 <;> simp [hs]
    · rw [if_neg h]
      exact not_lt.mp h
  · intro h
    unfold clamped_delta_P
    rw [if_pos h]
  · intro h
    unfold clamped_delta_P
    rw [if_neg (not_lt.mpr h)]

/-- C2: the simulation loop starts at `target_temp`, applies
`ΔT = (Q_delivered − Q_demand) · 3600 · 1000 / (volume · 1000 · 4186)` and
clamps to `[min_temp − 1, max_temp]` each hour, so whenever the initial
temperature `target_temp` lies in that interval, every hourly water
temperature of the run stays in it — for every weather series and control
behaviour (abstracted as `f`). -/
theorem claim_C2_temperature_invariant (c : SimConfig) (f : ℕ → ℚ → ℚ × ℚ)
    (h1 : c.min_temp - 1 ≤ c.target_temp) (h2 : c.target_temp ≤ c.max_temp) :
    ∀ n, c.min_temp - 1 ≤ sim_temps c f n ∧ sim_temps c f n ≤ c.max_temp := by
  intro n
  induction n with
  | zero => exact ⟨h1, h2⟩
  | succ n _ =>
    refine ⟨le_max_left _ _, max_le (le_trans h1 h2) (min_le_left _ _)⟩

/-- Witness for C2 at a concrete configuration and input series. -/
theorem claim_C2_witness :
    (⟨28, 26, 29, 625, 100, 200, 4.6⟩ : SimConfig).min_temp - 1 ≤
      sim_temps ⟨28, 26, 29, 625, 100, 200, 4.6⟩ (fun _ _ => (0, 10)) 5 ∧
    sim_temps ⟨28, 26, 29, 625, 100, 200, 4.6⟩ (fun _ _ => (0, 10)) 5 ≤
      (⟨28, 26, 29, 625, 100, 200, 4.6⟩ : SimConfig).max_temp :=
  claim_C2_temperature_invariant ⟨28, 26, 29, 625, 100, 200, 4.6⟩
    (fun _ _ => (0, 10)) (by norm_num) (by norm_num) 5

/-- C6: the four-case classification of the closed-period planner, given a
forecast average hourly demand of 250 kW with `hp_capacity = 100` and
`boiler_capacity = 200`, and 250 exceeding the heat pump plus the
thermal-mass-rate headroom, selects case 3 with overnight target `max_temp`,
`day_hp_power = 100` and `day_boiler_power = 150`. -/
theorem claim_C6_case3_classification (c : SimConfig)
    (h1 : c.hp_capacity_kw = 100) (h2 : c.boiler_capacity_kw = 200)
    (h3 : c.hp_capacity_kw + thermal_mass_rate c < 250) :
    classify_demand_case c 250 = (3, c.max_temp, 100, 150) := by
  unfold classify_demand_case
  rw [h1, h2]
  rw [h1] at h3
  rw [if_neg (by norm_num), if_neg (not_le.mpr h3), if_pos (by norm_num)]
  norm_num

/-- Witness for C6: a pool of 100 m³ has thermal mass rate 2093/18 ≈ 116 kWh/K,
so 250 kW exceeds the heat pump plus headroom. -/
theorem claim_C6_witness :
    classify_demand_case ⟨28, 26, 29, 100, 100, 200, 4.6⟩ 250 =
      (3, (⟨28, 26, 29, 100, 100, 200, 4.6⟩ : SimConfig).max_temp, 100, 150) :=
  claim_C6_case3_classification ⟨28, 26, 29, 100, 100, 200, 4.6⟩ rfl rfl (by
    unfold thermal_mass_rate
    norm_num)

/-- A shared concrete configuration for witnesses (the default pool: target
28 °C, min 26, max 29, 625 m³, HP 100 kW for the scenarios, boiler 200 kW,
COP 4.6). -/
def cfgA : SimConfig := ⟨28, 26, 29, 625, 100, 200, 4.6⟩

/-- The dispatch facts C9 asserts for one control result `r` at demand `d`. -/
def NegDispatch (r : ControlResult) (d : ℚ) : Prop :=
  r.Q_hp = d ∧ r.Q_hp < 0 ∧ r.Q_boiler = 0 ∧ r.Q_delivered = d ∧ r.Q_delivered < 0

/-- C9: heat-pump dispatch has no lower clamp at zero.  In reactive mode and
in the predictive no-periods fallback, at or above target the requested
power is the demand itself and `Q_hp = min(Q_needed, hp_capacity)`, so an
hour of negative net demand yields negative `Q_hp` and `Q_delivered`. -/
theorem claim_C9_negative_dispatch (c : SimConfig) (demand : ℚ → ℕ → ℚ)
    (current_idx len : ℕ) (T_water : ℚ) (periods : List DayPeriod) (hour : ℕ)
    (next_opening : Option ℕ) (hsp : ℚ) (op : Option OpenPlan) (cp : Option ClosedPlan)
    (hT : c.target_temp ≤ T_water) (hd : demand T_water current_idx < 0)
    (hhp : 0 ≤ c.hp_capacity_kw) (hbo : 0 ≤ c.boiler_capacity_kw) :
    NegDispatch (execute_control c CtrlMode.reactive demand current_idx len T_water
      periods hour next_opening hsp op cp).1 (demand T_water current_idx) ∧
    NegDispatch (execute_control c CtrlMode.predictive demand current_idx len T_water
      [] hour next_opening hsp op cp).1 (demand T_water current_idx) := by
  have key : NegDispatch (thermostat_dispatch c (demand T_water current_idx) T_water)
      (demand T_water current_idx) := by
    unfold NegDispatch thermostat_dispatch mk_result
    rw [if_neg (not_lt.mpr hT)]
    have hmin : min (demand T_water current_idx) c.hp_capacity_kw =
        demand T_water current_idx := min_eq_left (hd.le.trans hhp)
    refine ⟨hmin, ?_, ?_, ?_, ?_⟩
    · show min (demand T_water current_idx) c.hp_capacity_kw < 0
      rw [hmin]; exact hd
    · show min (demand T_water current_idx -
        min (demand T_water current_idx) c.hp_capacity_kw) c.boiler_capacity_kw = 0
      rw [hmin, sub_self]
      exact min_eq_left hbo
    · show min (demand T_water current_idx) c.hp_capacity_kw +
        min (demand T_water current_idx -
          min (demand T_water current_idx) c.hp_capacity_kw) c.boiler_capacity_kw =
        demand T_water current_idx
      rw [hmin, sub_self, min_eq_left hbo, add_zero]
    · show min (demand T_water current_idx) c.hp_capacity_kw +
        min (demand T_water current_idx -
          min (demand T_water current_idx) c.hp_capacity_kw) c.boiler_capacity_kw < 0
      rw [hmin, sub_self, min_eq_left hbo, add_zero]
      exact hd
  exact ⟨key, key⟩

/-- Witness for C9: constant solar-surplus demand of −5 kW at target
temperature. -/
theorem claim_C9_witness :
    NegDispatch (execute_control cfgA CtrlMode.reactive (fun _ _ => -5) 0 10 28
      [] 0 none 0 none none).1 (-5) ∧
    NegDispatch (execute_control cfgA CtrlMode.predictive (fun _ _ => -5) 0 10 28
      [] 0 none 0 none none).1 (-5) :=
  claim_C9_negative_dispatch cfgA (fun _ _ => -5) 0 10 28 [] 0 none 0 none none
    (by norm_num [cfgA]) (by norm_num) (by norm_num [cfgA]) (by norm_num [cfgA])

/-- The year-crossing December program of the spec's example:
start (12, 20), end (1, 5), recurring. -/
def decemberRange : DateRange := ⟨50, 1, 12, 20, 1, 5, true⟩

/-- C4: a recurring date-range program matches a date exactly by the
tuple-comparison rule — `start ≤ end` gives a same-year window
`start ≤ current ≤ end`, `start > end` a year-crossing window
`current ≥ start ∨ current ≤ end` — and in particular the program
(12, 20)–(1, 5) matches Dec 25 and Jan 2 of any year and not Jan 10. -/
theorem claim_C4_recurring_window :
    (∀ (dr : DateRange) (date : CalDate), dr.is_recurring = true →
      (date_in_range date dr = true ↔
        (if mdLe (dr.start_month, dr.start_day) (dr.end_month, dr.end_day) then
          mdLe (dr.start_month, dr.start_day) (date.month, date.day) ∧
            mdLe (date.month, date.day) (dr.end_month, dr.end_day)
        else
          mdLe (dr.start_month, dr.start_day) (date.month, date.day) ∨
            mdLe (date.month, date.day) (dr.end_month, dr.end_day)))) ∧
    (∀ year : ℕ,
      date_in_range ⟨year, 12, 25⟩ decemberRange = true ∧
      date_in_range ⟨year, 1, 2⟩ decemberRange = true ∧
      date_in_range ⟨year, 1, 10⟩ decemberRange = false) := by
  constructor
  · intro dr date hrec
    simp only [date_in_range, hrec, if_true]
    by_cases hse : mdLe (dr.start_month, dr.start_day) (dr.end_month, dr.end_day)
    · rw [if_pos hse, if_pos hse]
      simp [Bool.and_eq_true, decide_eq_true_eq]
    · rw [if_neg hse, if_neg hse]
      simp [Bool.or_eq_true, decide_eq_true_eq]
  · intro year
    exact ⟨rfl, rfl, rfl⟩

/-- Witness for C4: Dec 25, 2024 is inside the wrapped window. -/
theorem claim_C4_witness :
    decemberRange.is_recurring = true ∧
    date_in_range ⟨2024, 12, 25⟩ decemberRange = true :=
  ⟨rfl, (claim_C4_recurring_window.1 decemberRange ⟨2024, 12, 25⟩ rfl).mpr (by decide)⟩

/-- C3: schedule resolution checks exception days before date-range
programs.  (a) Any date matched by an exception day resolves to that
exception's schedule name, regardless of the date-range programs.  (b) A
date matching no exception that lies inside the highest-priority program
resolves via that program's week pattern. -/
theorem claim_C3_exception_wins :
    (∀ (S : SchedulerDB) (date : CalDate) (exc : ExceptionDay),
      check_exception_days S date = some exc →
      get_schedule_for_date S date = some exc.day_schedule_name) ∧
    (∀ (S : SchedulerDB) (date : CalDate) (dr : DateRange) (rest : List DateRange)
      (name : String),
      check_exception_days S date = none →
      S.date_ranges = dr :: rest →
      date_in_range date dr = true →
      (lookupWeek S dr.week_schedule_id).bind (fun ws => ws.dayName (weekday date)) =
        some name →
      get_schedule_for_date S date = some name) := by
  constructor
  · intro S date exc h
    unfold get_schedule_for_date
    rw [h]
  · intro S date dr rest name hexc hranges hin hlook
    obtain ⟨ws, hws, hname⟩ := Option.bind_eq_some.mp hlook
    unfold get_schedule_for_date
    rw [hexc, hranges]
    simp only [resolveRanges, hin, if_true, hws, hname]

/-- The week pattern of the witness scenario: Normal on all seven days. -/
def wsAllNormal : WeekSched :=
  ⟨some ("Normal"), some ("Normal"), some ("Normal"), some ("Normal"),
   some ("Normal"), some ("Normal"), some ("Normal")⟩

/-- The spec's example Summer program: a recurring window spanning Dec 24,
resolving through `wsAllNormal` (week-schedule id 2). -/
def summerProgram : DateRange := ⟨50, 2, 6, 1, 12, 31, true⟩

/-- The spec's example Christmas exception day: fixed Dec 25 ↦ Closed. -/
def christmasException : ExceptionDay := ⟨("Closed"), some 12, some 25, false, none, 100⟩

/-- The witness scheduler state for C3/C10. -/
def schedEx : SchedulerDB :=
  ⟨[("Normal"), ("Closed")], [(2, wsAllNormal)], [summerProgram],
   [christmasException], [], none⟩

/-- Witness for C3: Dec 25, 2024 resolves to Closed through the exception,
Dec 24, 2024 to Normal through the program's week pattern. -/
theorem claim_C3_witness :
    get_schedule_for_date schedEx ⟨2024, 12, 25⟩ = some ("Closed") ∧
    get_schedule_for_date schedEx ⟨2024, 12, 24⟩ = some ("Normal") :=
  ⟨claim_C3_exception_wins.1 schedEx ⟨2024, 12, 25⟩ christmasException rfl,
   claim_C3_exception_wins.2 schedEx ⟨2024, 12, 24⟩ summerProgram [] ("Normal")
     rfl rfl rfl rfl⟩

/-- A non-recurring range never matches (`_date_in_range` returns `False`
unconditionally on `is_recurring = False`). -/
theorem nonrecurring_never_matches (dr : DateRange) (date : CalDate)
    (h : dr.is_recurring = false) : date_in_range date dr = false := by
  simp [date_in_range, h]

/-- `resolveRanges` reads the scheduler state only through its week
schedules. -/
theorem resolveRanges_congr_week (S T : SchedulerDB)
    (h : S.week_schedules = T.week_schedules) (date : CalDate) :
    ∀ l, resolveRanges S date l = resolveRanges T date l := by
  intro l
  induction l with
  | nil => rfl
  | cons dr rest ih => simp only [resolveRanges, lookupWeek, h, ih]

/-- Removing a never-matching range from anywhere in the program list does
not change the result of the date-range loop. -/
theorem resolveRanges_skip (S : SchedulerDB) (date : CalDate) (dr : DateRange)
    (h : date_in_range date dr = false) :
    ∀ l1 l2, resolveRanges S date (l1 ++ dr :: l2) = resolveRanges S date (l1 ++ l2) := by
  intro l1 l2
  induction l1 with
  | nil => simp [resolveRanges, h]
  | cons a t ih => simp only [List.cons_append, resolveRanges, List.append_eq, ih]

/-- C10: a date-range program with `is_recurring = False` never matches any
date, and removing it from the configured program list leaves schedule
resolution unchanged for every date. -/
theorem claim_C10_nonrecurring_inert :
    (∀ (dr : DateRange) (date : CalDate), dr.is_recurring = false →
      date_in_range date dr = false) ∧
    (∀ (S : SchedulerDB) (pre post : List DateRange) (dr : DateRange) (date : CalDate),
      dr.is_recurring = false →
      get_schedule_for_date { S with date_ranges := pre ++ dr :: post } date =
        get_schedule_for_date { S with date_ranges := pre ++ post } date) := by
  refine ⟨fun dr date h => nonrecurring_never_matches dr date h, ?_⟩
  intro S pre post dr date hrec
  have hresolve : resolveRanges { S with date_ranges := pre ++ dr :: post } date
      (pre ++ dr :: post) =
      resolveRanges { S with date_ranges := pre ++ post } date (pre ++ post) :=
    (resolveRanges_skip _ date dr (nonrecurring_never_matches dr date hrec) pre post).trans
      (resolveRanges_congr_week { S with date_ranges := pre ++ dr :: post }
        { S with date_ranges := pre ++ post } rfl date (pre ++ post))
  unfold get_schedule_for_date
  have hce : check_exception_days { S with date_ranges := pre ++ dr :: post } date =
      check_exception_days { S with date_ranges := pre ++ post } date := rfl
  rw [hce]
  cases check_exception_days { S with date_ranges := pre ++ post } date with
  | some exc => rfl
  | none =>
    rw [hresolve]
    cases resolveRanges { S with date_ranges := pre ++ post } date (pre ++ post) with
    | some name => rfl
    | none => rfl

/-- A non-recurring winter program used by the C10 witness. -/
def nonRecurringRange : DateRange := ⟨10, 2, 3, 1, 4, 30, false⟩

/-- Witness for C10 at a concrete state and date. -/
theorem claim_C10_witness :
    nonRecurringRange.is_recurring = false ∧
    get_schedule_for_date { schedEx with date_ranges := [] ++ nonRecurringRange :: [summerProgram] } ⟨2024, 3, 15⟩ =
      get_schedule_for_date { schedEx with date_ranges := [] ++ [summerProgram] } ⟨2024, 3, 15⟩ :=
  ⟨rfl, claim_C10_nonrecurring_inert.2 schedEx [] [summerProgram] nonRecurringRange
    ⟨2024, 3, 15⟩ rfl⟩

/-- `finish_closed_plan` reports the energy and hours it was given in the
`energy_needed` and `hours_to_open` fields (both branches). -/
theorem finish_closed_plan_fields (c : SimConfig) (k : ℕ)
    (tn dh db av ha te hn : ℚ) :
    (finish_closed_plan c k tn dh db av ha te hn).energy_needed = te ∧
    (finish_closed_plan c k tn dh db av ha te hn).hours_to_open = ha := by
  unfold finish_closed_plan
  split <;> exact ⟨rfl, rfl⟩

/-- When the HP alone covers the energy needed, the assembled plan leaves
the boiler start unset and its night boiler power zero. -/
theorem finish_closed_plan_hp_sufficient (c : SimConfig) (k : ℕ)
    (tn dh db av ha te hn : ℚ) (h : te ≤ c.hp_capacity_kw * ha) :
    (finish_closed_plan c k tn dh db av ha te hn).start_boiler_in = none ∧
    (finish_closed_plan c k tn dh db av ha te hn).night_boiler_power = 0 := by
  unfold finish_closed_plan
  rw [if_pos h]
  exact ⟨rfl, rfl⟩

/-- Closed-period execution with a plan whose boiler start is unset never
dispatches boiler power, in every sub-mode and at every hour. -/
theorem closed_dispatch_no_boiler (c : SimConfig) (p : ClosedPlan)
    (h : p.start_boiler_in = none) (Qd T hsp : ℚ) :
    (closed_dispatch c p Qd T hsp).Q_boiler = 0 := by
  cases hA : (activation p.start_hp_in hsp).1 with
  | false => simp [closed_dispatch, closed_boiler_act, mk_result, h, hA]
  | true => simp [closed_dispatch, closed_boiler_act, mk_result, h, hA]

/-- C8: whenever `plan_closed_period` finds the heat pump alone sufficient
(total energy needed at most `hp_capacity × hours available`, reported in
the plan as `energy_needed ≤ hp_capacity * hours_to_open`), the produced
plan has a null boiler start time and zero night boiler power, and the
closed-period execution driven by that plan dispatches `Q_boiler = 0` at
every hour until the next opening. -/
theorem claim_C8_hp_sufficient_no_boiler (c : SimConfig) (demand : ℚ → ℕ → ℚ)
    (current_idx len : ℕ) (T_water : ℚ) (next_opening : Option ℕ) (p : ClosedPlan)
    (hplan : plan_closed_period c demand current_idx len T_water next_opening = some p)
    (hsuff : p.energy_needed ≤ c.hp_capacity_kw * p.hours_to_open) :
    p.start_boiler_in = none ∧ p.night_boiler_power = 0 ∧
    ∀ Q_demand T hsp : ℚ, (closed_dispatch c p Q_demand T hsp).Q_boiler = 0 := by
  cases next_opening with
  | none => exact absurd hplan (by simp [plan_closed_period])
  | some hto =>
    simp only [plan_closed_period, Option.some.injEq] at hplan
    subst hplan
    rw [(finish_closed_plan_fields c _ _ _ _ _ _ _ _).1,
      (finish_closed_plan_fields c _ _ _ _ _ _ _ _).2] at hsuff
    refine ⟨(finish_closed_plan_hp_sufficient c _ _ _ _ _ _ _ _ hsuff).1,
      (finish_closed_plan_hp_sufficient c _ _ _ _ _ _ _ _ hsuff).2,
      fun Qd T hsp => closed_dispatch_no_boiler c _
        (finish_closed_plan_hp_sufficient c _ _ _ _ _ _ _ _ hsuff).1 Qd T hsp⟩

/-- Witness for C8: zero demand at target temperature, opening in 14 hours;
the planner needs no energy, leaves the boiler unset and the dispatch keeps
it off. -/
theorem claim_C8_witness :
    plan_closed_period cfgA (fun _ _ => 0) 0 40 28 (some 14) =
      some ⟨1, 28, 0, 0, 14, none, 100, 0, 14, 0, 0⟩ ∧
    (⟨1, 28, 0, 0, 14, none, 100, 0, 14, 0, 0⟩ : ClosedPlan).start_boiler_in = none ∧
    (closed_dispatch cfgA ⟨1, 28, 0, 0, 14, none, 100, 0, 14, 0, 0⟩ 30 27 5).Q_boiler = 0 := by
  refine ⟨by with_unfolding_all decide, ?_, ?_⟩
  · exact (claim_C8_hp_sufficient_no_boiler cfgA (fun _ _ => 0) 0 40 28 (some 14)
      ⟨1, 28, 0, 0, 14, none, 100, 0, 14, 0, 0⟩ (by with_unfolding_all decide)
      (by with_unfolding_all decide)).1
  · exact (claim_C8_hp_sufficient_no_boiler cfgA (fun _ _ => 0) 0 40 28 (some 14)
      ⟨1, 28, 0, 0, 14, none, 100, 0, 14, 0, 0⟩ (by with_unfolding_all decide)
      (by with_unfolding_all decide)).2.2 30 27 5

/-- The fractional ramp factor never exceeds 1. -/
theorem activation_factor_le_one (s e : ℚ) : (activation s e).2 ≤ 1 := by
  unfold activation
  split_ifs with h1 h2
  · exact le_refl 1
  · show 1 - (s - (⌊s⌋ : ℚ)) ≤ 1
    have := Int.floor_le s
    linarith
  · show (0 : ℚ) ≤ 1
    norm_num

/-- The fractional ramp factor is nonnegative. -/
theorem activation_factor_nonneg (s e : ℚ) : 0 ≤ (activation s e).2 := by
  unfold activation
  split_ifs with h1 h2
  · show (0 : ℚ) ≤ 1
    norm_num
  · show 0 ≤ 1 - (s - (⌊s⌋ : ℚ))
    have := Int.lt_floor_add_one s
    linarith
  · exact le_refl 0

/-- `finish_closed_plan` sets the night HP power to the HP capacity and the
night boiler power to either 0 or the boiler capacity (both branches). -/
theorem finish_closed_plan_night (c : SimConfig) (k : ℕ) (tn dh db av ha te hn : ℚ) :
    (finish_closed_plan c k tn dh db av ha te hn).night_hp_power = c.hp_capacity_kw ∧
    ((finish_closed_plan c k tn dh db av ha te hn).night_boiler_power = 0 ∨
      (finish_closed_plan c k tn dh db av ha te hn).night_boiler_power =
        c.boiler_capacity_kw) := by
  unfold finish_closed_plan
  split
  · exact ⟨rfl, Or.inl rfl⟩
  · exact ⟨rfl, Or.inr rfl⟩

/-- Every plan produced by `plan_closed_period` sets the night HP power to
the HP capacity and the night boiler power to either 0 or the boiler
capacity. -/
theorem plan_closed_period_night_powers (c : SimConfig) (demand : ℚ → ℕ → ℚ)
    (current_idx len : ℕ) (T_water : ℚ) (next_opening : Option ℕ) (p : ClosedPlan)
    (h : plan_closed_period c demand current_idx len T_water next_opening = some p) :
    p.night_hp_power = c.hp_capacity_kw ∧
    (p.night_boiler_power = 0 ∨ p.night_boiler_power = c.boiler_capacity_kw) := by
  cases next_opening with
  | none => exact absurd h (by simp [plan_closed_period])
  | some hto =>
    simp only [plan_closed_period, Option.some.injEq] at h
    subst h
    exact finish_closed_plan_night c _ _ _ _ _ _ _ _

/-- Capacity bounds of the shared thermostat block. -/
theorem thermostat_dispatch_caps (c : SimConfig) (Qd T : ℚ) :
    (thermostat_dispatch c Qd T).Q_hp ≤ c.hp_capacity_kw ∧
    (thermostat_dispatch c Qd T).Q_boiler ≤ c.boiler_capacity_kw :=
  ⟨min_le_right _ _, min_le_right _ _⟩

/-- Capacity bounds of the open-period dispatch, for any plan contents. -/
theorem open_dispatch_caps (c : SimConfig) (plan : OpenPlan) (Qd : ℚ) :
    (open_dispatch c plan Qd).Q_hp ≤ c.hp_capacity_kw ∧
    (open_dispatch c plan Qd).Q_boiler ≤ c.boiler_capacity_kw :=
  ⟨min_le_right _ _, min_le_right _ _⟩

/-- Capacity bounds of the closed-period dispatch for any plan whose night
powers respect the configured capacities (which `plan_closed_period`
guarantees, case 4 included). -/
theorem closed_dispatch_caps (c : SimConfig) (p : ClosedPlan) (Qd T hsp : ℚ)
    (hhp : 0 ≤ c.hp_capacity_kw) (hbo : 0 ≤ c.boiler_capacity_kw)
    (hn : p.night_hp_power = c.hp_capacity_kw)
    (hb : p.night_boiler_power = 0 ∨ p.night_boiler_power = c.boiler_capacity_kw) :
    (closed_dispatch c p Qd T hsp).Q_hp ≤ c.hp_capacity_kw ∧
    (closed_dispatch c p Qd T hsp).Q_boiler ≤ c.boiler_capacity_kw := by
  have hnn : 0 ≤ p.night_hp_power := hn ▸ hhp
  have hbn : 0 ≤ p.night_boiler_power := by
    rcases hb with h | h
    exacts [h.ge, h ▸ hbo]
  have hble : p.night_boiler_power ≤ c.boiler_capacity_kw := by
    rcases hb with h | h
    exacts [h.le.trans hbo, h.le]
  have hhp_pow : p.night_hp_power * (activation p.start_hp_in hsp).2 ≤ c.hp_capacity_kw :=
    (mul_le_of_le_one_right hnn (activation_factor_le_one _ _)).trans_eq hn
  have hbo_pow : ∀ e : ℚ, p.night_boiler_power * (activation e hsp).2 ≤ c.boiler_capacity_kw :=
    fun e => (mul_le_of_le_one_right hbn (activation_factor_le_one _ _)).trans hble
  cases hA : (activation p.start_hp_in hsp).1 with
  | false =>
    constructor
    · simp only [closed_dispatch, mk_result, hA, Bool.false_eq_true, if_false]
      exact min_le_right _ _
    · simp only [closed_dispatch, mk_result, hA, Bool.false_eq_true, if_false]
      exact hbo
  | true =>
    constructor
    · simp only [closed_dispatch, mk_result, hA, if_true]
      exact (min_le_right _ _).trans hhp_pow
    · simp only [closed_dispatch, mk_result, hA, if_true]
      cases hS : p.start_boiler_in with
      | none =>
        simp only [closed_boiler_act, hS, Bool.false_eq_true, if_false]
        exact hbo
      | some sbi =>
        simp only [closed_boiler_act, hS]
        cases hB : (activation sbi hsp).1 with
        | false =>
          simp only [hB, Bool.false_eq_true, if_false]
          exact hbo
        | true =>
          simp only [hB, if_true]
          exact (min_le_right _ _).trans (hbo_pow sbi)

/-- The invariant C1 needs of the stored closed plan: it is absent or a
planner output (night HP power = HP capacity, night boiler power 0 or the
boiler capacity). -/
def GoodClosed (c : SimConfig) : Option ClosedPlan → Prop
  | none => True
  | some p => p.night_hp_power = c.hp_capacity_kw ∧
      (p.night_boiler_power = 0 ∨ p.night_boiler_power = c.boiler_capacity_kw)

/-- The transition-triggered re-planning keeps the stored closed plan a
planner output. -/
theorem update_plans_good (c : SimConfig) (demand : ℚ → ℕ → ℚ)
    (current_idx len : ℕ) (T_water : ℚ) (periods : List DayPeriod) (hour : ℕ)
    (next_opening : Option ℕ) (s : Option OpenPlan × Option ClosedPlan)
    (hs : GoodClosed c s.2) :
    GoodClosed c
      (update_plans c demand current_idx len T_water periods hour next_opening s).2 := by
  unfold update_plans
  generalize get_daily_transitions periods = ts
  induction ts generalizing s with
  | nil => exact hs
  | cons t ts ih =>
    rw [List.foldl_cons]
    apply ih
    by_cases h : t.time = hour
    · rw [if_pos h]
      cases t.kind with
      | topen =>
        cases periods.find? (fun p => p.fromHour = hour) with
        | some p => exact hs
        | none => exact hs
      | tclose =>
        show GoodClosed c (plan_closed_period c demand current_idx len T_water next_opening)
        cases hpp : plan_closed_period c demand current_idx len T_water next_opening with
        | none => trivial
        | some p =>
          exact plan_closed_period_night_powers c demand current_idx len T_water
            next_opening p hpp
    · rw [if_neg h]
      exact hs

/-- C1: in every control branch — reactive, the no-periods fallback, the
open-period dispatch, the closed-period dispatch under a planner-produced
plan (case 4 included) and the no-plan fallback — the dispatched powers
satisfy `Q_hp ≤ hp_capacity_kw` and `Q_boiler ≤ boiler_capacity_kw`, for
every hour, provided the capacities are nonnegative and the stored closed
plan (if any) is a `plan_closed_period` output (`GoodClosed`, the invariant
`update_plans_good` and `plan_closed_period_night_powers` establish for
every reachable state). -/
theorem claim_C1_capacity_bounds (c : SimConfig) (mode : CtrlMode)
    (demand : ℚ → ℕ → ℚ) (current_idx len : ℕ) (T_water : ℚ)
    (periods : List DayPeriod) (hour : ℕ) (next_opening : Option ℕ) (hsp : ℚ)
    (op : Option OpenPlan) (cp : Option ClosedPlan)
    (hhp : 0 ≤ c.hp_capacity_kw) (hbo : 0 ≤ c.boiler_capacity_kw)
    (hcp : GoodClosed c cp) :
    (execute_control c mode demand current_idx len T_water periods hour
      next_opening hsp op cp).1.Q_hp ≤ c.hp_capacity_kw ∧
    (execute_control c mode demand current_idx len T_water periods hour
      next_opening hsp op cp).1.Q_boiler ≤ c.boiler_capacity_kw := by
  cases mode with
  | reactive => exact thermostat_dispatch_caps c _ _
  | predictive =>
    simp only [execute_control]
    by_cases hpe : periods.isEmpty = true
    · simp only [hpe, if_true]
      exact thermostat_dispatch_caps c _ _
    · simp only [hpe, if_false]
      have hgood : GoodClosed c
          (update_plans c demand current_idx len T_water periods hour next_opening
            (op, cp)).2 :=
        update_plans_good c demand current_idx len T_water periods hour next_opening
          (op, cp) hcp
      cases hcur : get_current_period periods hour with
      | some cur =>
        simp only [hcur]
        exact open_dispatch_caps c _ _
      | none =>
        simp only [hcur]
        cases hs2 : (update_plans c demand current_idx len T_water periods hour
            next_opening (op, cp)).2 with
        | some p =>
          simp only [hs2]
          rw [hs2] at hgood
          exact closed_dispatch_caps c p _ _ _ hhp hbo hgood.1 hgood.2
        | none =>
          simp only [hs2]
          cases hpp : plan_closed_period c demand current_idx len T_water next_opening with
          | some p =>
            simp only [hpp]
            have hg := plan_closed_period_night_powers c demand current_idx len T_water
              next_opening p hpp
            exact closed_dispatch_caps c p _ _ _ hhp hbo hg.1 hg.2
          | none =>
            simp only [hpp]
            exact ⟨min_le_right _ _, hbo⟩

/-- Witness for C1 on a concrete closed hour with a planner-produced plan197
state. -/
theorem claim_C1_witness :
    (execute_control cfgA CtrlMode.predictive (fun _ _ => 30) 0 40 28 [⟨10, 20, 28⟩]
      5 (some 5) 3 none none).1.Q_hp ≤ cfgA.hp_capacity_kw ∧
    (execute_control cfgA CtrlMode.predictive (fun _ _ => 30) 0 40 28 [⟨10, 20, 28⟩]
      5 (some 5) 3 none none).1.Q_boiler ≤ cfgA.boiler_capacity_kw :=
  claim_C1_capacity_bounds cfgA CtrlMode.predictive (fun _ _ => 30) 0 40 28
    [⟨10, 20, 28⟩] 5 (some 5) 3 none none (by norm_num [cfgA]) (by norm_num [cfgA])
    trivial

/-! ### C5: the single-period 10:00–20:00 scenario -/

/-- The scenario's single daily period, 10:00–20:00 at 28 °C. -/
def c5period : DayPeriod := ⟨10, 20, 28⟩

/-- The `(weather index, hour of day)` pairs of the scenario's open window:
ten hours starting at the opening transition. -/
def open_window (idx : ℕ) : List (ℕ × ℕ) :=
  (List.range 10).map fun i => (idx + i, 10 + i)

/-- A bounded forecast sum of a constant demand with no data truncation is
`n` times the constant. -/
theorem fsum_const (idx len n : ℕ) (q : ℚ) (h : idx + n ≤ len) :
    fsum idx len n (fun _ => q) = n * q := by
  unfold fsum
  have hf : ((List.range n).filter fun i => decide (idx + i < len)) = List.range n := by
    apply List.filter_eq_self.mpr
    intro a ha
    rw [List.mem_range] at ha
    exact decide_eq_true (by omega)
  rw [hf]
  have hm : ((List.range n).map fun _ => q) = List.replicate n q := by
    rw [List.map_const', List.length_range]
  rw [hm, List.sum_replicate, nsmul_eq_mul]

/-- When delivery exactly matches demand, the integration step keeps the
temperature (the clamp is the identity inside the band). -/
theorem sim_step_self (c : SimConfig) (d T : ℚ)
    (h1 : c.min_temp - 1 ≤ T) (h2 : T ≤ c.max_temp) :
    sim_step c d d T = T := by
  show max (c.min_temp - 1)
      (min c.max_temp (T + (d - d) * 3600 * 1000 / (c.volume_m3 * 1000 * 4186))) = T
  rw [sub_self, zero_mul, zero_mul, zero_div, add_zero, min_eq_right h2, max_eq_right h1]

/-- The open-period plan of the scenario: with the forecast inside the
available energy and the water at or below target, the planner spreads the
constant demand as the HP rate, uses no boiler and classifies case 1. -/
theorem c5_plan_facts (c : SimConfig) (dfun : ℚ → ℚ) (idx len : ℕ) (T0 : ℚ)
    (hc1 : c.target_temp = 28) (hc2 : c.hp_capacity_kw = 100)
    (hT : T0 ≤ 28) (hd : 0 ≤ dfun T0)
    (hforecast : 10 * dfun T0 ≤ 100 * 10 + max 0 (T0 - 28) * thermal_mass_rate c)
    (hlen : idx + 10 ≤ len) :
    (plan_period_opening c (fun T _ => dfun T) idx len T0 c5period).hp_rate_day = dfun T0 ∧
    (plan_period_opening c (fun T _ => dfun T) idx len T0 c5period).boiler_rate_day = 0 ∧
    (plan_period_opening c (fun T _ => dfun T) idx len T0 c5period).caseNum = 1 := by
  have hte : max 0 (T0 - c.target_temp) = 0 := by
    rw [hc1]
    exact max_eq_left (by linarith)
  have hfc : 10 * dfun T0 ≤ 100 * 10 := by
    rw [hc1] at hte
    rw [hte, zero_mul, add_zero] at hforecast
    exact hforecast
  have hd100 : dfun T0 ≤ 100 := by linarith
  have h10 : get_period_duration c5period = 10 := rfl
  have hsum : fsum idx len 10 (fun _ => dfun T0) = 10 * dfun T0 :=
    fsum_const idx len 10 (dfun T0) hlen
  simp only [plan_period_opening, h10, hsum, hte, zero_mul, zero_add, sub_zero,
    Nat.cast_ofNat]
  have hcond : c.hp_capacity_kw * 10 ≥ 10 * dfun T0 := by
    rw [hc2]
    linarith
  rw [if_pos hcond]
  have hrate : max 0 (min (10 * dfun T0 / 10) c.hp_capacity_kw) = dfun T0 := by
    have hdiv : 10 * dfun T0 / 10 = dfun T0 := by
      rw [mul_comm, mul_div_assoc]
      norm_num
    rw [hdiv, hc2, min_eq_left hd100, max_eq_right hd]
  rw [hrate]
  exact ⟨rfl, rfl, if_pos rfl⟩

/-- Open-period dispatch under the scenario's plan: zero boiler, zero unmet,
delivery equal to the (constant) demand. -/
theorem open_dispatch_c5 (c : SimConfig) (plan : OpenPlan) (d : ℚ)
    (hr : plan.hp_rate_day = d) (hb : plan.boiler_rate_day = 0)
    (hd100 : d ≤ c.hp_capacity_kw) (hbo : 0 ≤ c.boiler_capacity_kw) :
    (open_dispatch c plan d).Q_boiler = 0 ∧ (open_dispatch c plan d).Q_unmet = 0 ∧
    (open_dispatch c plan d).Q_delivered = d := by
  have hQhp : min plan.hp_rate_day c.hp_capacity_kw = d := by
    rw [hr]
    exact min_eq_left hd100
  have hQb : min plan.boiler_rate_day c.boiler_capacity_kw = 0 := by
    rw [hb]
    exact min_eq_left hbo
  refine ⟨?_, ?_, ?_⟩
  · show min plan.boiler_rate_day c.boiler_capacity_kw = 0
    exact hQb
  · show max 0 (d - (min plan.hp_rate_day c.hp_capacity_kw +
      min plan.boiler_rate_day c.boiler_capacity_kw)) = 0
    rw [hQhp, hQb, add_zero, sub_self, max_self]
  · show min plan.hp_rate_day c.hp_capacity_kw +
      min plan.boiler_rate_day c.boiler_capacity_kw = d
    rw [hQhp, hQb, add_zero]

/-- At an interior open hour (strictly between the 10:00 opening and the
20:00 close) with an open plan already stored, `execute_control` leaves the
plan state unchanged and dispatches the open plan. -/
theorem execute_control_open_hour (c : SimConfig) (dm : ℚ → ℕ → ℚ)
    (idx len : ℕ) (T : ℚ) (hour : ℕ) (next_opening : Option ℕ) (hsp : ℚ)
    (plan : OpenPlan) (cp : Option ClosedPlan) (h1 : 10 < hour) (h2 : hour < 20) :
    execute_control c CtrlMode.predictive dm idx len T [c5period] hour next_opening hsp
      (some plan) cp = (open_dispatch c plan (dm T idx), some plan, cp) := by
  have htrans : get_daily_transitions [c5period] =
      [⟨10, TransKind.topen, some 28, none⟩, ⟨20, TransKind.tclose, none, some 28⟩] := rfl
  have hne1 : ¬ ((10 : ℕ) = hour) := by omega
  have hne2 : ¬ ((20 : ℕ) = hour) := by omega
  have hup : update_plans c dm idx len T [c5period] hour next_opening (some plan, cp) =
      (some plan, cp) := by
    unfold update_plans
    rw [htrans]
    simp [List.foldl, hne1, hne2]
  have hcur : get_current_period [c5period] hour = some c5period := by
    unfold get_current_period
    apply List.find?_cons_of_pos
    show (if c5period.fromHour < c5period.toHour then
        decide (c5period.fromHour ≤ hour ∧ hour < c5period.toHour)
      else decide (hour ≥ c5period.fromHour ∨ hour < c5period.toHour)) = true
    rw [show c5period.fromHour = 10 from rfl, show c5period.toHour = 20 from rfl,
      if_pos (by norm_num : (10 : ℕ) < 20)]
    exact decide_eq_true ⟨by omega, h2⟩
  simp only [execute_control, List.isEmpty_cons, Bool.false_eq_true, if_false, hup, hcur,
    Option.getD_some]

/-- At the 10:00 opening transition with no stored open plan,
`execute_control` creates the open plan via `plan_period_opening` for the
period starting now and dispatches it. -/
theorem execute_control_transition_hour (c : SimConfig) (dm : ℚ → ℕ → ℚ)
    (idx len : ℕ) (T : ℚ) (next_opening : Option ℕ) (hsp : ℚ) (cp : Option ClosedPlan) :
    execute_control c CtrlMode.predictive dm idx len T [c5period] 10 next_opening hsp
      none cp =
      (open_dispatch c (plan_period_opening c dm idx len T c5period) (dm T idx),
       some (plan_period_opening c dm idx len T c5period), cp) := by
  have htrans : get_daily_transitions [c5period] =
      [⟨10, TransKind.topen, some 28, none⟩, ⟨20, TransKind.tclose, none, some 28⟩] := rfl
  have hfind : [c5period].find? (fun p => p.fromHour = 10) = some c5period := by
    apply List.find?_cons_of_pos
    exact decide_eq_true rfl
  have hup : update_plans c dm idx len T [c5period] 10 next_opening (none, cp) =
      (some (plan_period_opening c dm idx len T c5period), cp) := by
    unfold update_plans
    rw [htrans]
    simp [List.foldl, hfind, show ¬((20 : ℕ) = 10) by omega]
  have hcur : get_current_period [c5period] 10 = some c5period := by
    unfold get_current_period
    apply List.find?_cons_of_pos
    show (if c5period.fromHour < c5period.toHour then
        decide (c5period.fromHour ≤ 10 ∧ 10 < c5period.toHour)
      else decide (10 ≥ c5period.fromHour ∨ 10 < c5period.toHour)) = true
    rw [show c5period.fromHour = 10 from rfl, show c5period.toHour = 20 from rfl,
      if_pos (by norm_num : (10 : ℕ) < 20)]
    exact decide_eq_true ⟨le_refl 10, by norm_num⟩
  simp only [execute_control, List.isEmpty_cons, Bool.false_eq_true, if_false, hup, hcur,
    Option.getD_some]

/-- Interior hours of the scenario's open window: with the open plan stored,
the water temperature stays put and every hourly record uses zero boiler
power and reports zero unmet demand. -/
theorem c5_run_invariant (c : SimConfig) (dfun : ℚ → ℚ) (len : ℕ)
    (next_opening : Option ℕ) (hsp : ℚ) (plan : OpenPlan) (T0 : ℚ)
    (hr : plan.hp_rate_day = dfun T0) (hb : plan.boiler_rate_day = 0)
    (hd100 : dfun T0 ≤ c.hp_capacity_kw) (hbo : 0 ≤ c.boiler_capacity_kw)
    (hT1 : c.min_temp - 1 ≤ T0) (hT2 : T0 ≤ c.max_temp) :
    ∀ (hrs : List (ℕ × ℕ)) (cp : Option ClosedPlan),
      (∀ x ∈ hrs, 10 < x.2 ∧ x.2 < 20) →
      ∀ r ∈ simulate_hours c CtrlMode.predictive (fun T _ => dfun T) len [c5period]
        next_opening hsp hrs (some plan, cp) T0,
        r.Q_boiler = 0 ∧ r.Q_unmet = 0 := by
  intro hrs
  induction hrs with
  | nil =>
    intro cp _ r hrm
    simp [simulate_hours] at hrm
  | cons x rest ih =>
    intro cp hx r hrm
    obtain ⟨idx, hour⟩ := x
    have hx0 := hx (idx, hour) (List.mem_cons_self _ _)
    have hstep := execute_control_open_hour c (fun T _ => dfun T) idx len T0 hour
      next_opening hsp plan cp hx0.1 hx0.2
    have hod := open_dispatch_c5 c plan (dfun T0) hr hb hd100 hbo
    have hT1eq : sim_step c (open_dispatch c plan (dfun T0)).Q_delivered (dfun T0) T0 = T0 := by
      rw [hod.2.2]
      exact sim_step_self c (dfun T0) T0 hT1 hT2
    simp only [simulate_hours, hstep] at hrm
    rw [hT1eq] at hrm
    rcases List.mem_cons.mp hrm with hcase | hcase
    · rw [hcase]
      exact ⟨hod.1, hod.2.1⟩
    · exact ih cp (fun y hy => hx y (List.mem_cons_of_mem _ hy)) r hcase

/-- One-step unfolding of the simulation loop. -/
theorem simulate_hours_cons (c : SimConfig) (mode : CtrlMode) (dm : ℚ → ℕ → ℚ)
    (len : ℕ) (periods : List DayPeriod) (next_opening : Option ℕ) (hsp : ℚ)
    (idx hour : ℕ) (rest : List (ℕ × ℕ)) (plans : Option OpenPlan × Option ClosedPlan)
    (T : ℚ) :
    simulate_hours c mode dm len periods next_opening hsp ((idx, hour) :: rest) plans T =
      (execute_control c mode dm idx len T periods hour next_opening hsp
        plans.1 plans.2).1 ::
      simulate_hours c mode dm len periods next_opening hsp rest
        ((execute_control c mode dm idx len T periods hour next_opening hsp
            plans.1 plans.2).2.1,
         (execute_control c mode dm idx len T periods hour next_opening hsp
            plans.1 plans.2).2.2)
        (sim_step c (execute_control c mode dm idx len T periods hour next_opening hsp
            plans.1 plans.2).1.Q_delivered (dm T idx) T) := rfl

set_option maxHeartbeats 1600000 in
/-- C5 (amended): in the single-period 10:00–20:00 scenario (HP 100 kW,
boiler 200 kW, target 28 °C) with constant weather — demand a function
`dfun` of the water temperature only — if the forecast 10-hour demand at the
transition-time temperature is at most 100 kW × 10 h plus the thermal-mass
buffer energy, the open plan created at the transition is case 1 with boiler
rate 0, and — provided additionally the transition temperature is at most
the target and the demand there is nonnegative — every hour of the open
window dispatches zero boiler power and reports zero unmet demand.  (The
extra temperature condition is necessary: see the counterexample, where a
buffer above target makes the planner deduct the buffer from the HP rate and
the dispatch then reports positive `Q_unmet`.) -/
theorem claim_C5_case1_open_window (c : SimConfig) (dfun : ℚ → ℚ) (idx len : ℕ)
    (T0 : ℚ) (next_opening : Option ℕ) (hsp : ℚ)
    (hc1 : c.target_temp = 28) (hc2 : c.hp_capacity_kw = 100)
    (hc3 : c.boiler_capacity_kw = 200)
    (hT : T0 ≤ 28) (hTmin : c.min_temp - 1 ≤ T0) (hmax : (28 : ℚ) ≤ c.max_temp)
    (hd : 0 ≤ dfun T0)
    (hforecast : 10 * dfun T0 ≤ 100 * 10 + max 0 (T0 - 28) * thermal_mass_rate c)
    (hlen : idx + 10 ≤ len) :
    (plan_period_opening c (fun T _ => dfun T) idx len T0 c5period).caseNum = 1 ∧
    (plan_period_opening c (fun T _ => dfun T) idx len T0 c5period).boiler_rate_day = 0 ∧
    ∀ r ∈ simulate_hours c CtrlMode.predictive (fun T _ => dfun T) len [c5period]
        next_opening hsp (open_window idx) (none, none) T0,
      r.Q_boiler = 0 ∧ r.Q_unmet = 0 := by
  have hplan := c5_plan_facts c dfun idx len T0 hc1 hc2 hT hd hforecast hlen
  have hbo : (0 : ℚ) ≤ c.boiler_capacity_kw := by
    rw [hc3]
    norm_num
  have hd100 : dfun T0 ≤ c.hp_capacity_kw := by
    rw [hc2]
    have hte : max 0 (T0 - 28) = 0 := max_eq_left (by linarith)
    rw [hte, zero_mul, add_zero] at hforecast
    linarith
  have hT2 : T0 ≤ c.max_temp := hT.trans hmax
  refine ⟨hplan.2.2, hplan.2.1, ?_⟩
  have hwin : open_window idx =
      (idx, 10) :: ((List.range 9).map fun i => (idx + (i + 1), 10 + (i + 1))) := by
    unfold open_window
    rw [List.range_succ_eq_map]
    simp [List.map_map, Function.comp]
  rw [hwin]
  intro r hrm
  have hstep0 := execute_control_transition_hour c (fun T _ => dfun T) idx len T0
    next_opening hsp none
  have hod := open_dispatch_c5 c (plan_period_opening c (fun T _ => dfun T) idx len T0
    c5period) (dfun T0) hplan.1 hplan.2.1 hd100 hbo
  have hT1eq : sim_step c (open_dispatch c (plan_period_opening c (fun T _ => dfun T)
      idx len T0 c5period) (dfun T0)).Q_delivered (dfun T0) T0 = T0 := by
    rw [hod.2.2]
    exact sim_step_self c (dfun T0) T0 hTmin hT2
  rw [simulate_hours_cons] at hrm
  simp only [hstep0] at hrm
  rw [hT1eq] at hrm
  rcases List.mem_cons.mp hrm with hcase | hcase
  · rw [hcase]
    exact ⟨hod.1, hod.2.1⟩
  · refine c5_run_invariant c dfun len next_opening hsp _ T0 hplan.1 hplan.2.1 hd100 hbo
      hTmin hT2 _ none ?_ r hcase
    intro y hy
    simp only [List.mem_map, List.mem_range] at hy
    obtain ⟨i, hi, rfl⟩ := hy
    exact ⟨by omega, by omega⟩

/-- Counterexample to C5 as stated: at transition temperature 28.5 °C
(above target) with constant demand 50 kW, the forecast bound of the claim
holds and the plan is case 1 with boiler rate 0, yet the dispatched hours
report nonzero `Q_unmet` (the planner deducts the buffer energy from the HP
rate while `Q_needed` stays the full demand). -/
theorem claim_C5_counterexample :
    ((10 : ℚ) * 50 ≤ 100 * 10 +
      max 0 ((57 / 2 : ℚ) - cfgA.target_temp) * thermal_mass_rate cfgA) ∧
    (plan_period_opening cfgA (fun _ _ => (50 : ℚ)) 0 20 (57 / 2) c5period).caseNum = 1 ∧
    (plan_period_opening cfgA (fun _ _ => (50 : ℚ)) 0 20 (57 / 2) c5period).boiler_rate_day = 0 ∧
    ¬ (∀ r ∈ simulate_hours cfgA CtrlMode.predictive (fun _ _ => (50 : ℚ)) 20 [c5period]
        none 0 (open_window 0) (none, none) (57 / 2), r.Q_unmet = 0) := by
  with_unfolding_all decide

/-- Witness for C5 (amended) at transition temperature exactly the target
and constant demand 50 kW. -/
theorem claim_C5_witness :
    (plan_period_opening cfgA (fun T _ => (50 : ℚ)) 0 10 28 c5period).caseNum = 1 ∧
    (plan_period_opening cfgA (fun T _ => (50 : ℚ)) 0 10 28 c5period).boiler_rate_day = 0 ∧
    ∀ r ∈ simulate_hours cfgA CtrlMode.predictive (fun T _ => (50 : ℚ)) 10 [c5period]
        none 0 (open_window 0) (none, none) 28,
      r.Q_boiler = 0 ∧ r.Q_unmet = 0 :=
  claim_C5_case1_open_window cfgA (fun _ => 50) 0 10 28 none 0 rfl rfl rfl
    (le_refl 28) (by norm_num [cfgA]) (by norm_num [cfgA]) (by norm_num)
    (by norm_num) (by norm_num)
